import Mathlib

/-!
# A model of the `timers` terminal stopwatch

This file gives a shallow embedding of the stopwatch core of `src/main.rs`
(the `Timers` struct, its `handle_events` input step, its `run` loop, and the
time-formatting part of its `render` method), together with the pure
transition functions `toggleRunning`, `reset`, `requestExit` and `advance`
that the design document ascribes to the state, and proofs relating the two.

Durations are modelled as natural numbers of nanoseconds, matching Rust's
`std::time::Duration`, whose accessors `as_secs` and `subsec_millis` are the
integer divisions written out below.  Colors are modelled as abstract numeric
codes: the program never inspects them, it only stores and forwards them.
-/

set_option autoImplicit false

/-- The theme carried by the application state: a foreground and a background
color.  The concrete `ratatui` color enumeration is abstracted to numeric
codes, since the stopwatch logic never examines a color. -/
structure Theme where
  fg : Nat
  bg : Nat
deriving DecidableEq, Repr

/-- Default theme: white foreground on black background (`Color::White`,
`Color::Black`), encoded as two distinct abstract codes. -/
def Theme.default : Theme := { fg := 0, bg := 1 }

instance : Inhabited Theme := ⟨Theme.default⟩

/-- The `Timers` application state of `src/main.rs`:

```rust
#[derive(Default)]
pub struct Timers {
    exit: bool,
    running: bool,
    timer: Duration,
    theme: Theme,
}
```

`timer` is the elapsed duration in nanoseconds. -/
structure Timers where
  exit : Bool
  running : Bool
  timer : Nat
  theme : Theme
deriving DecidableEq, Repr

/-- Rust's `Timers::default()`: all flags false, zero elapsed time, default theme. -/
def Timers.default : Timers :=
  { exit := false, running := false, timer := 0, theme := Theme.default }

/-- The discriminant of `crossterm::event::KeyEventKind`. -/
inductive KeyEventKind where
  | Press
  | Repeat
  | Release
deriving DecidableEq, Repr

/-- The key codes of `crossterm::event::KeyCode` that the program can receive.
`Esc` and `Char c` are the constructors the code matches on; every remaining
variant of the enumeration (`Enter`, `Backspace`, the arrow keys, `F(n)`, …)
is collapsed into `other`, tagged by a number, since the program treats them
all alike. -/
inductive KeyCode where
  | Esc
  | Char (c : Char)
  | other (tag : Nat)
deriving DecidableEq, Repr

/-- A `crossterm::event::KeyEvent`: a key code, a modifier set and an event
kind.  `modifiers` models the `KeyModifiers` bitflags as a natural number,
with `0` standing for `KeyModifiers::NONE`.  (The additional `state` field of
the real struct is never inspected by the program and is omitted.) -/
structure KeyEvent where
  code : KeyCode
  modifiers : Nat
  kind : KeyEventKind
deriving DecidableEq, Repr

/-- A `crossterm::event::Event`.  Key events are modelled in full; the
remaining variants (`FocusGained`, `FocusLost`, `Mouse`, `Paste`, `Resize`)
are collapsed into `other`, tagged by a number, since the program ignores
them all. -/
inductive Event where
  | key (keyEvent : KeyEvent)
  | other (tag : Nat)
deriving DecidableEq, Repr

/-- Numerator of the IEEE-754 binary64 value of the Rust expression
`1.0 / 60.0`: the representable number nearest to 1/60 is
4803839602528529 · 2⁻⁵⁸ (the significand is ⌊2⁵⁶/15⌉ = 4803839602528529,
since 2⁵⁶ = 15 · 4803839602528529 + 1). -/
def oneSixtiethNum : Nat := 4803839602528529

/-- Denominator 2⁵⁸ of the binary64 value of `1.0 / 60.0`. -/
def oneSixtiethDen : Nat := 2 ^ 58

/-- The frame budget `Duration::from_secs_f64(1.0 / 60.0)` in nanoseconds.  `from_secs_f64`
rounds its argument to the nearest nanosecond (ties to even; the fractional
part here is ≈ 2/3, so no tie arises and round-half-up computes the same
value): ⌊(num · 10⁹ · 2 + den) / (2 · den)⌋. -/
def frameRateNanos : Nat :=
  (oneSixtiethNum * 1000000000 * 2 + oneSixtiethDen) / (2 * oneSixtiethDen)

/-- The key-transition part of `Timers::handle_events`: the `match` on the
polled event,

```rust
match event::read()? {
    Event::Key(key_event) if key_event.kind == KeyEventKind::Press => {
        match (key_event.code, key_event.modifiers) {
            (KeyCode::Esc, KeyModifiers::NONE) => { self.exit = true; }
            (KeyCode::Char(' '), KeyModifiers::NONE) => { self.running = !self.running; }
            (KeyCode::Char('r'), KeyModifiers::NONE) => { self.timer = Duration::new(0, 0); }
            _ => (),
        }
    }
    _ => {}
}
```

applied to the outcome of the poll (`none` when `event::poll` timed out). -/
def applyKey (t : Timers) (ev : Option Event) : Timers :=
  match ev with
  | some (Event.key keyEvent) =>
    if keyEvent.kind = KeyEventKind.Press then
      match keyEvent.code, keyEvent.modifiers with
      | KeyCode.Esc, 0 => { t with exit := true }
      | KeyCode.Char ' ', 0 => { t with running := !t.running }
      | KeyCode.Char 'r', 0 => { t with timer := 0 }
      | _, _ => t
    else t
  | _ => t

/-- One iteration's input step `Timers::handle_events`: apply the key
transition for the polled event (if any), then run the unconditional

```rust
if self.running {
    self.timer += frame_rate;
}
```

with `frame_rate = Duration::from_secs_f64(1.0 / 60.0)`. -/
def handleEvents (t : Timers) (ev : Option Event) : Timers :=
  let t := applyKey t ev
  if t.running then { t with timer := t.timer + frameRateNanos } else t

/-- The design document's `toggleRunning()`: flip the `running` flag. -/
def toggleRunning (t : Timers) : Timers := { t with running := !t.running }

/-- The design document's `reset()`: set the elapsed time to zero. -/
def reset (t : Timers) : Timers := { t with timer := 0 }

/-- The design document's `requestExit()`: set the exit flag. -/
def requestExit (t : Timers) : Timers := { t with exit := true }

/-- The design document's `advance(delta)`: add `delta` to the elapsed time
if running, otherwise do nothing. -/
def advance (t : Timers) (delta : Nat) : Timers :=
  if t.running then { t with timer := t.timer + delta } else t

/-- Observable actions of one loop execution: `render t` records a
`terminal.draw(|frame| self.render_frame(frame))` call made in state `t`, and
`handle ev` records a `self.handle_events()` call that polled outcome `ev`. -/
inductive LoopAction where
  | render (t : Timers)
  | handle (ev : Option Event)
deriving DecidableEq, Repr

/-- The loop of `Timers::run`,

```rust
while !self.exit {
    terminal.draw(|frame| self.render_frame(frame))?;
    self.handle_events()?;
}
```

driven by a finite list of poll outcomes, one per iteration (`none` when the
poll timed out).  Returns the trace of render/handle actions together with
the final state; the loop stops early as soon as its per-iteration check
observes `exit = true`. -/
def run : Timers → List (Option Event) → List LoopAction × Timers
  | t, [] => ([], t)
  | t, ev :: rest =>
    if t.exit then ([], t)
    else
      let next := run (handleEvents t ev) rest
      (LoopAction.render t :: LoopAction.handle ev :: next.1, next.2)

/-- Left-pad a string with `'0'` up to a minimum width, the behavior of the
Rust format specifiers `{:02}` and `{:03}` on unsigned integers: numbers that
already need `width` or more digits are printed in full, never truncated. -/
def padZero (width : Nat) (s : String) : String :=
  if s.length < width then String.mk (List.replicate (width - s.length) '0') ++ s else s

/-- Rust's `format!("{n:0width$}")` for a natural number: decimal digits, zero-padded
to at least `width` characters. -/
def fmtPad (width : Nat) (n : Nat) : String := padZero width (toString n)

/-- The time string assembled by the `render` method of
`StatefulWidget for &mut Timers`:

```rust
let hours = self.timer.as_secs() / 60 / 60;
let hours_string = format!("{hours:02}");
let minutes = self.timer.as_secs() / 60 % 60;
let minutes_string = format!("{minutes:02}");
let seconds = self.timer.as_secs() % 60;
let seconds_string = format!("{seconds:02}");
let milliseconds = self.timer.subsec_millis();
let milliseconds_string = format!("{milliseconds:03}");
```

joined as `hours:minutes:seconds.milliseconds`.  `Duration::as_secs` is
division by 10⁹ and `Duration::subsec_millis` is the sub-second remainder
divided by 10⁶. -/
def timerString (nanos : Nat) : String :=
  let hours := nanos / 1000000000 / 60 / 60
  let minutes := nanos / 1000000000 / 60 % 60
  let seconds := nanos / 1000000000 % 60
  let milliseconds := nanos % 1000000000 / 1000000
  fmtPad 2 hours ++ ":" ++ fmtPad 2 minutes ++ ":" ++ fmtPad 2 seconds ++ "." ++
    fmtPad 3 milliseconds

/-- Whether a string has the exact shape `HH:MM:SS.mmm`: twelve characters,
of which exactly two digits each for hours, minutes and seconds, exactly
three digits for milliseconds, separated by `:`, `:`, `.`. -/
def isHHMMSSmmm (s : String) : Bool :=
  match s.toList with
  | [h1, h2, c1, m1, m2, c2, e1, e2, d, x1, x2, x3] =>
    h1.isDigit && h2.isDigit && c1 == ':' && m1.isDigit && m2.isDigit && c2 == ':' &&
      e1.isDigit && e2.isDigit && d == '.' && x1.isDigit && x2.isDigit && x3.isDigit
  | _ => false

/-- The poll outcome for a modifier-free Escape key press. -/
def escPress : Option Event :=
  some (Event.key { code := KeyCode.Esc, modifiers := 0, kind := KeyEventKind.Press })

/-- The poll outcome for a modifier-free space key press. -/
def spacePress : Option Event :=
  some (Event.key { code := KeyCode.Char ' ', modifiers := 0, kind := KeyEventKind.Press })

/-- The poll outcome for a modifier-free lowercase `r` key press. -/
def rPress : Option Event :=
  some (Event.key { code := KeyCode.Char 'r', modifiers := 0, kind := KeyEventKind.Press })

/-! ## Basic lemmas about the transition functions -/

/-- The input step is exactly the key transition followed by the design
document's `advance` at the frame budget. -/
theorem handleEvents_eq_advance (t : Timers) (ev : Option Event) :
    handleEvents t ev = advance (applyKey t ev) frameRateNanos := rfl

/-- Key events that are not presses (releases, repeats) leave the state
untouched by the key transition. -/
theorem applyKey_of_kind_ne (t : Timers) (k : KeyEvent) (h : k.kind ≠ KeyEventKind.Press) :
    applyKey t (some (Event.key k)) = t := by
  simp [applyKey, h]

/-- Key presses carrying any modifier leave the state untouched by the key
transition. -/
theorem applyKey_of_mods_ne (t : Timers) (k : KeyEvent) (h : k.modifiers ≠ 0) :
    applyKey t (some (Event.key k)) = t := by
  obtain ⟨code, mods, kind⟩ := k
  simp only [applyKey]
  by_cases hk : kind = KeyEventKind.Press
  · simp only [hk, if_pos rfl]
    split <;> simp_all
  · simp [hk]

/-- Presses of any key other than Escape, space and lowercase `r` leave the
state untouched by the key transition. -/
theorem applyKey_of_code_unmapped (t : Timers) (k : KeyEvent) (h1 : k.code ≠ KeyCode.Esc)
    (h2 : k.code ≠ KeyCode.Char ' ') (h3 : k.code ≠ KeyCode.Char 'r') :
    applyKey t (some (Event.key k)) = t := by
  obtain ⟨code, mods, kind⟩ := k
  simp only [applyKey]
  by_cases hk : kind = KeyEventKind.Press
  · simp only [hk, if_pos rfl]
    split <;> simp_all
  · simp [hk]

/-- The key transition of any polled outcome applies exactly one of the three
design-document transitions, or none at all. -/
theorem applyKey_cases (t : Timers) (ev : Option Event) :
    applyKey t ev = t ∨ applyKey t ev = requestExit t ∨ applyKey t ev = toggleRunning t ∨
      applyKey t ev = reset t := by
  cases ev with
  | none => exact Or.inl rfl
  | some e =>
    cases e with
    | other n => exact Or.inl rfl
    | key k =>
      obtain ⟨code, mods, kind⟩ := k
      by_cases hk : kind = KeyEventKind.Press
      · subst hk
        by_cases hm : mods = 0
        · subst hm
          cases code with
          | Esc => exact Or.inr (Or.inl rfl)
          | other tag => exact Or.inl (applyKey_of_code_unmapped t _ (by simp) (by simp) (by simp))
          | Char c =>
            by_cases hsp : c = ' '
            · subst hsp; exact Or.inr (Or.inr (Or.inl rfl))
            · by_cases hr : c = 'r'
              · subst hr; exact Or.inr (Or.inr (Or.inr rfl))
              · exact Or.inl
                  (applyKey_of_code_unmapped t _ (by simp) (by simp [hsp]) (by simp [hr]))
        · exact Or.inl (applyKey_of_mods_ne t _ hm)
      · exact Or.inl (applyKey_of_kind_ne t _ hk)

/-- The key transition never changes the elapsed time except to reset it to
zero. -/
theorem applyKey_timer (t : Timers) (ev : Option Event) :
    (applyKey t ev).timer = t.timer ∨ (applyKey t ev).timer = 0 := by
  rcases applyKey_cases t ev with h | h | h | h <;> rw [h] <;>
    simp [requestExit, toggleRunning, reset]

/-- The input step preserves divisibility of the elapsed time by the frame
budget. -/
theorem handleEvents_dvd (t : Timers) (ev : Option Event)
    (h : frameRateNanos ∣ t.timer) : frameRateNanos ∣ (handleEvents t ev).timer := by
  have hkey : frameRateNanos ∣ (applyKey t ev).timer := by
    rcases applyKey_timer t ev with ht | ht <;> rw [ht] <;> simp [h]
  rw [handleEvents_eq_advance]
  by_cases hr : (applyKey t ev).running = true
  · simpa [advance, hr] using Nat.dvd_add hkey dvd_rfl
  · simpa [advance, hr] using hkey

/-! ## Basic lemmas about the loop -/

/-- A loop whose per-iteration check observes `exit = true` stops at once:
no actions, no state change. -/
theorem run_exit (t : Timers) (evs : List (Option Event)) (h : t.exit = true) :
    run t evs = ([], t) := by
  cases evs with
  | nil => rfl
  | cons ev rest => simp [run, h]

/-- A live iteration renders the current state, handles one polled outcome
and continues. -/
theorem run_cons_live (t : Timers) (ev : Option Event) (rest : List (Option Event))
    (h : t.exit = false) :
    run t (ev :: rest) =
      (LoopAction.render t :: LoopAction.handle ev :: (run (handleEvents t ev) rest).1,
        (run (handleEvents t ev) rest).2) := by
  simp [run, h]

/-- Every state the loop passes to the renderer still has the exit flag
down: the render of each iteration happens only after that iteration's check
observed `exit = false`. -/
theorem render_states_not_exiting (t : Timers) (evs : List (Option Event)) :
    ∀ s : Timers, LoopAction.render s ∈ (run t evs).1 → s.exit = false := by
  induction evs generalizing t with
  | nil => intro s hs; simp [run] at hs
  | cons ev rest ih =>
    intro s hs
    by_cases h : t.exit = true
    · rw [run_exit t _ h] at hs
      simp at hs
    · have hf : t.exit = false := by simpa using h
      rw [run_cons_live t ev rest hf] at hs
      rcases List.mem_cons.mp hs with h1 | hs2
      · injection h1 with hst
        rw [hst]; exact hf
      · rcases List.mem_cons.mp hs2 with h2 | h3
        · exact absurd h2 (by simp)
        · exact ih (handleEvents t ev) s h3

/-- Running `n` input-free iterations from a running, non-exiting state
accumulates exactly `n` frame budgets. -/
theorem run_nones (n : Nat) (t : Timers) (hr : t.running = true) (hx : t.exit = false) :
    (run t (List.replicate n none)).2 = { t with timer := t.timer + n * frameRateNanos } := by
  induction n generalizing t with
  | zero =>
    cases t
    simp [run]
  | succ m ih =>
    rw [List.replicate_succ, run_cons_live t none _ hx]
    have hstep : handleEvents t none = { t with timer := t.timer + frameRateNanos } := by
      rw [handleEvents_eq_advance]
      simp [applyKey, advance, hr]
    rw [hstep,
      ih { exit := t.exit, running := t.running, timer := t.timer + frameRateNanos,
           theme := t.theme } hr hx]
    simp [Nat.succ_mul]
    ring

/-- The exit flag never comes back down across the input step. -/
theorem handleEvents_exit_mono (t : Timers) (ev : Option Event) (h : t.exit = true) :
    (handleEvents t ev).exit = true := by
  rw [handleEvents_eq_advance]
  rcases applyKey_cases t ev with hc | hc | hc | hc <;>
    rw [hc] <;> simp [advance, requestExit, toggleRunning, reset, h] <;> split <;> simp [h]

/-! ## Basic lemmas about the rendered time string -/

set_option maxRecDepth 8192 in
/-- Below 100, the two-wide zero-padded decimal rendering is exactly two
digit characters. -/
theorem fmtPad2_two_digits :
    ∀ n, n < 100 → (fmtPad 2 n).toList.length = 2 ∧ (fmtPad 2 n).toList.all Char.isDigit = true := by
  decide

set_option maxRecDepth 16384 in
/-- Below 1000, the three-wide zero-padded decimal rendering is exactly three
digit characters. -/
theorem fmtPad3_three_digits :
    ∀ n, n < 1000 →
      (fmtPad 3 n).toList.length = 3 ∧ (fmtPad 3 n).toList.all Char.isDigit = true := by
  decide

/-- For any elapsed time below one hundred hours, the rendered string has the
exact `HH:MM:SS.mmm` shape. -/
theorem timerString_shape (nanos : Nat) (h : nanos < 360000000000000) :
    isHHMMSSmmm (timerString nanos) = true := by
  have hh : nanos / 1000000000 / 60 / 60 < 100 := by omega
  have hm : nanos / 1000000000 / 60 % 60 < 60 := Nat.mod_lt _ (by norm_num)
  have hs : nanos / 1000000000 % 60 < 60 := Nat.mod_lt _ (by norm_num)
  have hms : nanos % 1000000000 / 1000000 < 1000 := by omega
  obtain ⟨hlH, haH⟩ := fmtPad2_two_digits _ hh
  obtain ⟨hlM, haM⟩ := fmtPad2_two_digits _ (hm.trans (by norm_num))
  obtain ⟨hlS, haS⟩ := fmtPad2_two_digits _ (hs.trans (by norm_num))
  obtain ⟨hlX, haX⟩ := fmtPad3_three_digits _ hms
  obtain ⟨a, b, hab⟩ := List.length_eq_two.mp hlH
  obtain ⟨c, d, hcd⟩ := List.length_eq_two.mp hlM
  obtain ⟨e, f, hef⟩ := List.length_eq_two.mp hlS
  obtain ⟨g, i, j, hgij⟩ := List.length_eq_three.mp hlX
  have key : (timerString nanos).toList =
      (fmtPad 2 (nanos / 1000000000 / 60 / 60)).toList ++ [':'] ++
      (fmtPad 2 (nanos / 1000000000 / 60 % 60)).toList ++ [':'] ++
      (fmtPad 2 (nanos / 1000000000 % 60)).toList ++ ['.'] ++
      (fmtPad 3 (nanos % 1000000000 / 1000000)).toList := by
    simp [timerString, String.toList, String.data_append]
  rw [hab, hcd, hef, hgij] at key
  rw [hab] at haH; rw [hcd] at haM; rw [hef] at haS; rw [hgij] at haX
  simp only [List.all_cons, List.all_nil, Bool.and_true, Bool.and_eq_true] at haH haM haS haX
  simp only [isHHMMSSmmm, key]
  simp [haH.1, haH.2, haM.1, haM.2, haS.1, haS.2, haX.1, haX.2.1, haX.2.2]

/-! ## The claims -/

/-- C1, counterexample: the exit flag is not absorbing within the iteration
that raises it.  Starting the loop from the default state, a space press
starts the timer, and the following Escape press sets `exit` — the key
transition itself leaves `timer` alone — yet the unconditional advance of
that same `handle_events` call still increments `timer`, so the final state
of the run holds two frame budgets, not one. -/
theorem escape_frame_still_advances :
    (applyKey (handleEvents Timers.default spacePress) escPress).exit = true ∧
    (applyKey (handleEvents Timers.default spacePress) escPress).timer =
      (handleEvents Timers.default spacePress).timer ∧
    (handleEvents (handleEvents Timers.default spacePress) escPress).timer ≠
      (handleEvents Timers.default spacePress).timer ∧
    (run Timers.default [spacePress, escPress]).2 =
      { exit := true, running := true, timer := 2 * frameRateNanos, theme := Theme.default } := by
  decide

/-- C1, amended: once the exit flag is true at the loop's per-iteration
check, the loop performs no further render or input handling — in
particular no further `toggleRunning`, `reset` or `advance` — and the state
is never mutated again.  (Within the iteration in which Escape raises the
flag, the unconditional advance still runs, per the counterexample.) -/
theorem exit_flag_halts_loop (t : Timers) (evs : List (Option Event)) (h : t.exit = true) :
    run t evs = ([], t) :=
  run_exit t evs h

/-- C1, witness: a concrete exiting state is returned untouched with an
empty action trace, whatever inputs are pending. -/
theorem exit_flag_halts_loop_witness :
    run { exit := true, running := true, timer := 7, theme := Theme.default }
        [spacePress, rPress, none] =
      ([], { exit := true, running := true, timer := 7, theme := Theme.default }) :=
  exit_flag_halts_loop _ _ rfl

/-- C2, counterexample: toggling from paused to running in a frame DOES
count that frame's budget as running time — the default (paused, zero) state
after one space-press iteration is running with `timer = frameRateNanos`,
not zero, because the advance step reads the post-transition flag. -/
theorem toggle_on_counts_current_frame :
    Timers.default.running = false ∧ Timers.default.timer = 0 ∧
    (handleEvents Timers.default spacePress).running = true ∧
    (handleEvents Timers.default spacePress).timer = frameRateNanos ∧
    frameRateNanos ≠ 0 := by
  decide

/-- C2, amended: every input step handles the event first and then performs
`advance(B)` with `B` the frame budget; the elapsed time grows by `B`
exactly when the post-transition running flag is true.  Consequently a
paused-to-running toggle counts that frame's `B` as running time, while a
running-to-paused toggle makes the advance a no-op for that frame. -/
theorem input_then_advance_order (t : Timers) (ev : Option Event) :
    handleEvents t ev = advance (applyKey t ev) frameRateNanos ∧
    ((applyKey t ev).running = true →
      (handleEvents t ev).timer = (applyKey t ev).timer + frameRateNanos) ∧
    ((applyKey t ev).running = false → (handleEvents t ev).timer = (applyKey t ev).timer) ∧
    (t.running = false → (handleEvents t spacePress).timer = t.timer + frameRateNanos) ∧
    (t.running = true → (handleEvents t spacePress).timer = t.timer) := by
  have hsp : applyKey t spacePress = toggleRunning t := rfl
  refine ⟨rfl, fun h => ?_, fun h => ?_, fun h => ?_, fun h => ?_⟩
  · rw [handleEvents_eq_advance]
    simp [advance, h]
  · rw [handleEvents_eq_advance]
    simp [advance, h]
  · rw [handleEvents_eq_advance, hsp]
    simp [advance, toggleRunning, h]
  · rw [handleEvents_eq_advance, hsp]
    simp [advance, toggleRunning, h]

/-- C2, witness: the four conditional conjuncts exercised on concrete paused
and running states. -/
theorem input_then_advance_order_witness :
    (handleEvents Timers.default none).timer = (applyKey Timers.default none).timer ∧
    (handleEvents { exit := false, running := true, timer := 0, theme := Theme.default }
        none).timer =
      (applyKey { exit := false, running := true, timer := 0, theme := Theme.default }
        none).timer + frameRateNanos ∧
    (handleEvents Timers.default spacePress).timer = Timers.default.timer + frameRateNanos ∧
    (handleEvents { exit := false, running := true, timer := 0, theme := Theme.default }
        spacePress).timer =
      Timers.timer { exit := false, running := true, timer := 0, theme := Theme.default } :=
  ⟨(input_then_advance_order Timers.default none).2.2.1 rfl,
   (input_then_advance_order _ none).2.1 rfl,
   (input_then_advance_order Timers.default spacePress).2.2.2.1 rfl,
   (input_then_advance_order _ spacePress).2.2.2.2 rfl⟩

/-- C3, confirmed: exactly three modifier-free key presses cause a
transition — Escape requests exit, space toggles running, lowercase `r`
resets — while key releases and repeats, modifier-bearing keys, unmapped
keys, non-key events and empty polls all leave the state unchanged apart
from the unconditional advance step; and the key transition of any single
polled outcome is at most one of the three transitions. -/
theorem key_mapping_complete (t : Timers) (k : KeyEvent) :
    handleEvents t escPress = advance (requestExit t) frameRateNanos ∧
    handleEvents t spacePress = advance (toggleRunning t) frameRateNanos ∧
    handleEvents t rPress = advance (reset t) frameRateNanos ∧
    (k.kind ≠ KeyEventKind.Press →
      handleEvents t (some (Event.key k)) = advance t frameRateNanos) ∧
    (k.modifiers ≠ 0 → handleEvents t (some (Event.key k)) = advance t frameRateNanos) ∧
    (k.code ≠ KeyCode.Esc → k.code ≠ KeyCode.Char ' ' → k.code ≠ KeyCode.Char 'r' →
      handleEvents t (some (Event.key k)) = advance t frameRateNanos) ∧
    (∀ tag, handleEvents t (some (Event.other tag)) = advance t frameRateNanos) ∧
    handleEvents t none = advance t frameRateNanos ∧
    (∀ ev : Option Event, applyKey t ev = t ∨ applyKey t ev = requestExit t ∨
      applyKey t ev = toggleRunning t ∨ applyKey t ev = reset t) := by
  refine ⟨rfl, rfl, rfl, fun h => ?_, fun h => ?_, fun h1 h2 h3 => ?_, fun tag => rfl, rfl,
    applyKey_cases t⟩
  · rw [handleEvents_eq_advance, applyKey_of_kind_ne t k h]
  · rw [handleEvents_eq_advance, applyKey_of_mods_ne t k h]
  · rw [handleEvents_eq_advance, applyKey_of_code_unmapped t k h1 h2 h3]

/-- C3, witness: an Escape release, a modifier-bearing Escape press and an
unmapped `x` press each leave the default state to the advance step alone. -/
theorem key_mapping_complete_witness :
    handleEvents Timers.default
        (some (Event.key
          { code := KeyCode.Esc, modifiers := 0, kind := KeyEventKind.Release })) =
      advance Timers.default frameRateNanos ∧
    handleEvents Timers.default
        (some (Event.key { code := KeyCode.Esc, modifiers := 2, kind := KeyEventKind.Press })) =
      advance Timers.default frameRateNanos ∧
    handleEvents Timers.default
        (some (Event.key
          { code := KeyCode.Char 'x', modifiers := 0, kind := KeyEventKind.Press })) =
      advance Timers.default frameRateNanos :=
  ⟨(key_mapping_complete Timers.default
      { code := KeyCode.Esc, modifiers := 0, kind := KeyEventKind.Release }).2.2.2.1
      (by decide),
   (key_mapping_complete Timers.default
      { code := KeyCode.Esc, modifiers := 2, kind := KeyEventKind.Press }).2.2.2.2.1
      (by decide),
   (key_mapping_complete Timers.default
      { code := KeyCode.Char 'x', modifiers := 0, kind := KeyEventKind.Press }).2.2.2.2.2.1
      (by decide) (by decide) (by decide)⟩

/-- C4, counterexample: at one hundred hours of elapsed time the hours field
is printed with three digits — the format pads to a minimum of two digits
but never truncates — so the rendered string leaves the exact
`HH:MM:SS.mmm` shape. -/
theorem hours_field_grows_past_two_digits :
    timerString 360000000000000 = "100:00:00.000" ∧
    isHHMMSSmmm (timerString 360000000000000) = false := by
  decide

/-- C4, amended: for every elapsed value below one hundred hours the
rendered time string has the exact `HH:MM:SS.mmm` shape — two zero-padded
digits each for hours, minutes and seconds and three for milliseconds — and
an elapsed time of 3723045 milliseconds is displayed as `01:02:03.045`.
(Above one hundred hours the hours field widens rather than truncating.) -/
theorem timer_format_hhmmssmmm (nanos : Nat) (h : nanos < 360000000000000) :
    isHHMMSSmmm (timerString nanos) = true ∧ timerString 3723045000000 = "01:02:03.045" :=
  ⟨timerString_shape nanos h, by decide⟩

/-- C4, witness: the shape and the scenario evaluated at 3723045
milliseconds. -/
theorem timer_format_hhmmssmmm_witness :
    isHHMMSSmmm (timerString 3723045000000) = true ∧
    timerString 3723045000000 = "01:02:03.045" :=
  timer_format_hhmmssmmm 3723045000000 (by decide)

/-- C5, confirmed: the toggle transition is an involution — applying it
twice restores the whole state — a single toggle flips `running` and leaves
the elapsed time, the exit flag and the theme unchanged, the space key press
is exactly this transition, and any even number of toggles restores the
original `running` value. -/
theorem toggle_involution (t : Timers) (n : Nat) :
    toggleRunning (toggleRunning t) = t ∧
    (toggleRunning t).running = !t.running ∧
    (toggleRunning t).timer = t.timer ∧
    (toggleRunning t).exit = t.exit ∧
    (toggleRunning t).theme = t.theme ∧
    applyKey t spacePress = toggleRunning t ∧
    (toggleRunning^[2 * n] t).running = t.running := by
  refine ⟨?_, rfl, rfl, rfl, rfl, rfl, ?_⟩
  · cases t
    simp [toggleRunning]
  · induction n with
    | zero => rfl
    | succ m ih =>
      have h2 : 2 * (m + 1) = 2 * m + 1 + 1 := by ring
      rw [h2, Function.iterate_succ_apply', Function.iterate_succ_apply']
      simp [toggleRunning, ih]

/-- C6, confirmed: reset sets the elapsed time to zero and changes nothing
else — `running`, the exit flag and the theme keep their prior values, for
any prior elapsed value — the `r` key press is exactly this transition, and
in particular a running state at 45000 milliseconds resets to zero with
`running` still true. -/
theorem reset_zeroes_elapsed_only (t : Timers) :
    (reset t).timer = 0 ∧ (reset t).running = t.running ∧ (reset t).exit = t.exit ∧
    (reset t).theme = t.theme ∧ applyKey t rPress = reset t ∧
    reset { exit := false, running := true, timer := 45000000000, theme := t.theme } =
      { exit := false, running := true, timer := 0, theme := t.theme } :=
  ⟨rfl, rfl, rfl, rfl, rfl, rfl⟩

/-- C7, confirmed: on any paused state, `advance` with any non-negative
delta leaves the entire state unchanged; in particular a fresh state after
`advance(5000 ms)` still shows zero elapsed time. -/
theorem advance_noop_when_paused (t : Timers) (delta : Nat) (h : t.running = false) :
    advance t delta = t ∧ (advance Timers.default 5000000000).timer = 0 := by
  refine ⟨?_, rfl⟩
  simp [advance, h]

/-- C7, witness: advancing the fresh default state by five seconds returns
it unchanged. -/
theorem advance_noop_when_paused_witness :
    advance Timers.default 5000000000 = Timers.default :=
  (advance_noop_when_paused Timers.default 5000000000 rfl).1

/-- C8, confirmed: accumulation is additive — on any running state,
advancing by `d1` and then by `d2` produces the same state, and so the same
elapsed value, as a single advance by `d1 + d2`. -/
theorem advance_additive (t : Timers) (d1 d2 : Nat) (h : t.running = true) :
    advance (advance t d1) d2 = advance t (d1 + d2) ∧
    (advance (advance t d1) d2).timer = (advance t (d1 + d2)).timer := by
  have key : advance (advance t d1) d2 = advance t (d1 + d2) := by
    simp [advance, h, Nat.add_assoc]
  exact ⟨key, by rw [key]⟩

/-- C8, witness: additivity evaluated on a concrete running state. -/
theorem advance_additive_witness :
    advance (advance { exit := false, running := true, timer := 5, theme := Theme.default } 1) 2 =
      advance { exit := false, running := true, timer := 5, theme := Theme.default } (1 + 2) :=
  (advance_additive { exit := false, running := true, timer := 5, theme := Theme.default }
    1 2 rfl).1

/-- C9, confirmed: the loop stops the moment its per-iteration check
observes the exit flag, producing no further actions and leaving the state
untouched; and every render the loop ever performs is of a state whose exit
flag is down, i.e. no render happens after the check that confirms the exit
request (the render of the flag-setting iteration precedes that check). -/
theorem no_render_after_exit_check (t : Timers) (evs : List (Option Event)) :
    (t.exit = true → run t evs = ([], t)) ∧
    (∀ s : Timers, LoopAction.render s ∈ (run t evs).1 → s.exit = false) :=
  ⟨run_exit t evs, render_states_not_exiting t evs⟩

/-- C9, witness: a concrete exiting state stops the loop at once, and the
one render of a one-iteration live run is of a non-exiting state. -/
theorem no_render_after_exit_check_witness :
    run { exit := true, running := false, timer := 0, theme := Theme.default } [none] =
      ([], { exit := true, running := false, timer := 0, theme := Theme.default }) ∧
    Timers.default.exit = false :=
  ⟨(no_render_after_exit_check
      { exit := true, running := false, timer := 0, theme := Theme.default } [none]).1 rfl,
   (no_render_after_exit_check Timers.default [none]).2 Timers.default (by decide)⟩

/-- C10, counterexample: the frame budget `Duration::from_secs_f64(1.0/60.0)`
is 16666667 nanoseconds, not 16666666 — one advance from a running state with
zero elapsed time yields 16666667 nanoseconds. -/
theorem frame_budget_not_16666666 :
    frameRateNanos = 16666667 ∧ frameRateNanos ≠ 16666666 ∧
    (handleEvents { exit := false, running := true, timer := 0, theme := Theme.default }
      none).timer = 16666667 := by
  decide

/-- C10, amended: every state the loop reaches from the default state has an
elapsed time that is an exact integer multiple of the frame budget
`B = 16666667` nanoseconds; a run of one space press followed by `n` empty
polls reaches elapsed time `(n + 1) · B` exactly, and since `B` is coprime
to 10⁶ the elapsed time can nevertheless be a nonzero whole number of
milliseconds: at `n = 999999` (one million counted frames) it is
`10⁶ · B = 16666667000000` nanoseconds, i.e. 16666667 ms on the nose. -/
theorem elapsed_multiple_of_frame_budget (evs : List (Option Event)) (n : Nat) :
    frameRateNanos ∣ (run Timers.default evs).2.timer ∧
    frameRateNanos = 16666667 ∧
    (run Timers.default (spacePress :: List.replicate n none)).2.timer =
      (n + 1) * frameRateNanos ∧
    1000000 * frameRateNanos % 1000000 = 0 ∧
    1000000 * frameRateNanos ≠ 0 := by
  refine ⟨?_, by decide, ?_, by decide, by decide⟩
  · have base : frameRateNanos ∣ Timers.default.timer := ⟨0, rfl⟩
    have main : ∀ (l : List (Option Event)) (s : Timers), frameRateNanos ∣ s.timer →
        frameRateNanos ∣ (run s l).2.timer := by
      intro l
      induction l with
      | nil => intro s hs; exact hs
      | cons ev rest ih =>
        intro s hs
        by_cases hx : s.exit = true
        · rw [run_exit s _ hx]; exact hs
        · rw [run_cons_live s ev rest (by simpa using hx)]
          exact ih (handleEvents s ev) (handleEvents_dvd s ev hs)
    exact main evs Timers.default base
  · rw [run_cons_live Timers.default spacePress _ rfl]
    have hstart : handleEvents Timers.default spacePress =
        { exit := false, running := true, timer := frameRateNanos, theme := Theme.default } := by
      decide
    rw [hstart, run_nones n _ rfl rfl]
    show frameRateNanos + n * frameRateNanos = (n + 1) * frameRateNanos
    ring
